import Mathlib

/-! Shallow embedding of `src/src/virtio_console.js` (the `VirtioConsole` device of
this repository).  Pure byte buffers are `List Nat` (each entry a byte value).
The virtqueue transport and the `marshall` module are external collaborators,
modelled from the spec's interface description (§6.1, §6.4): a queue's pending
requests form a FIFO list of buffer chains, `pop_request` removes the oldest,
and a reply is a buffer-chain handle together with the blob written into it.
Handler outputs (replies pushed to a queue, bus publishes) are recorded in an
output trace so ordering claims can be stated. -/

/-- Control event codes from the top of the source file. -/
def VIRTIO_CONSOLE_DEVICE_READY : Nat := 0

/-- Control event code `DEVICE_ADD`. -/
def VIRTIO_CONSOLE_DEVICE_ADD : Nat := 1

/-- Control event code `DEVICE_REMOVE`. -/
def VIRTIO_CONSOLE_DEVICE_REMOVE : Nat := 2

/-- Control event code `PORT_READY`. -/
def VIRTIO_CONSOLE_PORT_READY : Nat := 3

/-- Control event code `CONSOLE_PORT`. -/
def VIRTIO_CONSOLE_CONSOLE_PORT : Nat := 4

/-- Control event code `RESIZE`. -/
def VIRTIO_CONSOLE_RESIZE : Nat := 5

/-- Control event code `PORT_OPEN`. -/
def VIRTIO_CONSOLE_PORT_OPEN : Nat := 6

/-- Control event code `PORT_NAME`. -/
def VIRTIO_CONSOLE_PORT_NAME : Nat := 7

/-- Modelled from the spec: little-endian bytes of a 16-bit field as written by
`marshall.Marshall` for format `"h"` (the `marshall` module is not under `src/`). -/
def le16 (n : Nat) : List Nat := [n % 256, n / 2 ^ 8 % 256]

/-- Modelled from the spec: little-endian bytes of a 32-bit field as written by
`marshall.Marshall` for format `"w"`. -/
def le32 (n : Nat) : List Nat :=
  [n % 256, n / 2 ^ 8 % 256, n / 2 ^ 16 % 256, n / 2 ^ 24 % 256]

/-- Read of one byte of a guest buffer; a JavaScript `Uint8Array` read past the
end feeds `undefined` into a bitwise operator, which coerces to `0`. -/
def rdByte (b : List Nat) (i : Nat) : Nat := b.getD i 0

/-- Modelled from the spec: `marshall.Unmarshall` of a `"h"` field at offset `i`. -/
def rd16 (b : List Nat) (i : Nat) : Nat := rdByte b i + 2 ^ 8 * rdByte b (i + 1)

/-- Modelled from the spec: `marshall.Unmarshall` of a `"w"` field at offset `i`,
kept as the unsigned 32-bit value (the JavaScript value is the same bit
pattern viewed as int32; signedness is applied where observable, see
`toInt32`). -/
def rd32 (b : List Nat) (i : Nat) : Nat :=
  rdByte b i + 2 ^ 8 * rdByte b (i + 1) + 2 ^ 16 * rdByte b (i + 2) +
    2 ^ 24 * rdByte b (i + 3)

/-- Signed 32-bit view of a bit pattern, matching how JavaScript prints the
value unmarshalled with `"w"`. -/
def toInt32 (n : Nat) : Int :=
  if n % 2 ^ 32 < 2 ^ 31 then (n % 2 ^ 32 : Int) else (n % 2 ^ 32 : Int) - 2 ^ 32

/-- UTF-8 bytes of an ASCII string as produced by `TextEncoder` in `SendName`. -/
def strBytes (s : String) : List Nat := s.data.map Char.toNat

/-- Name string `"virtio-" + port` built in the `PORT_READY` branch; `port` is
printed as a JavaScript int32. -/
def portName (port : Nat) : String := "virtio-" ++ toString (toInt32 port)

/-- Header written by `Marshall(["w","h","h"], [port, event, value], buf, 0)`. -/
def ctrlHeader (port event value : Nat) : List Nat :=
  le32 port ++ le16 event ++ le16 value

/-- Check `(1 << port) & this.consolePortEnable`: a JavaScript shift uses the
low five bits of the shift count, and the result is truthy iff the bit-pattern
conjunction is nonzero. -/
def consoleBit (mask port : Nat) : Bool := 2 ^ (port % 32) &&& mask != 0

/-- Buffer chain popped from a virtqueue: a handle (`id`) plus the readable
payload bytes. -/
structure BufChain where
  id : Nat
  data : List Nat
deriving Repr, DecidableEq

/-- Observable output of a handler: a reply pushed (and flushed) onto a queue
for a given buffer-chain handle, or a publish on the host bus. -/
inductive OutEvent where
  | reply (queueId : Nat) (buf : Nat) (blob : List Nat)
  | busSend (channel : String) (blob : List Nat)
deriving Repr, DecidableEq

/-- Device state: `rows`, `cols`, `ports`, `consolePortEnable` as in the
constructor, plus the FIFO of buffer-chain handles currently posted by the
driver on the control-receive queue (index 2), which the `Send*` helpers pop. -/
structure ConsoleState where
  rows : Nat
  cols : Nat
  ports : Nat
  consolePortEnable : Nat
  ctrlRecvBufs : List Nat
deriving Repr, DecidableEq

/-- Constructor options object; `none` models an absent (or non-number) field. -/
structure ConsoleOptions where
  rows : Option Nat
  cols : Option Nat
  ports : Option Nat
  consolePortEnable : Option Nat
deriving Repr, DecidableEq

/-- Constructor defaulting logic of `VirtioConsole` (rows 25, cols 80, 4 ports,
console-port mask `0b1111`); the control-receive queue starts empty. -/
def initConsole (opts : ConsoleOptions) : ConsoleState :=
  { rows := opts.rows.getD 25
    cols := opts.cols.getD 80
    ports := opts.ports.getD 4
    consolePortEnable := opts.consolePortEnable.getD 15
    ctrlRecvBufs := [] }

/-- Declared shape of one virtqueue (`size_supported`, `notify_offset`). -/
structure QueueDecl where
  size_supported : Nat
  notify_offset : Nat
deriving Repr, DecidableEq

/-- The four queues declared before the per-port loop in the constructor. -/
def baseQueues : List QueueDecl := [⟨16, 0⟩, ⟨16, 1⟩, ⟨16, 2⟩, ⟨16, 3⟩]

/-- Queue pairs appended by `for (let i = 1; i < this.ports; ++i)`: one
receive queue (size 16, notify offset 0) then one transmit queue (size 8,
notify offset 1) per additional port. -/
def extraPairs : Nat → List QueueDecl
  | 0 => []
  | n + 1 => extraPairs n ++ [⟨16, 0⟩, ⟨8, 1⟩]

/-- Full queue declaration list for a device with `ports` ports. -/
def queueDecls (ports : Nat) : List QueueDecl := baseQueues ++ extraPairs (ports - 1)

/-- Pop of the oldest control-receive buffer followed by `Send(2, bufchain,
blob)`; `none` models the underlying `pop_request` failing on an empty queue. -/
def sendOnCtrl (st : ConsoleState) (blob : List Nat) : Option (ConsoleState × OutEvent) :=
  match st.ctrlRecvBufs with
  | [] => none
  | b :: rest => some ({ st with ctrlRecvBufs := rest }, OutEvent.reply 2 b blob)

/-- Source `SendEvent(port, event, value)`. -/
def SendEvent (st : ConsoleState) (port event value : Nat) : Option (ConsoleState × OutEvent) :=
  sendOnCtrl st (ctrlHeader port event value)

/-- Source `SendName(port, name)`: 8-byte header with event `PORT_NAME` and
value 1, then the name bytes, then one NUL byte. -/
def SendName (st : ConsoleState) (port : Nat) (name : String) :
    Option (ConsoleState × OutEvent) :=
  sendOnCtrl st (ctrlHeader port VIRTIO_CONSOLE_PORT_NAME 1 ++ strBytes name ++ [0])

/-- Source `SendWindowSize(port)`: `Marshall(["w","h","h","h","h"],
[port, RESIZE, 0, this.rows, this.cols])`. -/
def SendWindowSize (st : ConsoleState) (port : Nat) : Option (ConsoleState × OutEvent) :=
  sendOnCtrl st (ctrlHeader port VIRTIO_CONSOLE_RESIZE 0 ++ le16 st.rows ++ le16 st.cols)

/-- Loop body of the `DEVICE_READY` case: `for (i = 0; i < ports; ++i)
SendEvent(i, DEVICE_ADD, 0)`, starting at index `i` with `count` iterations
left. -/
def sendDeviceAdds (st : ConsoleState) (i : Nat) : Nat → Option (ConsoleState × List OutEvent)
  | 0 => some (st, [])
  | count + 1 =>
    match SendEvent st i VIRTIO_CONSOLE_DEVICE_ADD 0 with
    | none => none
    | some (st1, e) =>
      match sendDeviceAdds st1 (i + 1) count with
      | none => none
      | some (st2, es) => some (st2, e :: es)

/-- One iteration of the queue-3 drain loop: unmarshal `[port, event, value]`,
`Ack` the bufchain, then the `switch`.  The returned `Bool` is `false` exactly
when the `default:` branch executes its `return` (in production `dbg_assert`
is a no-op), ending the drain early. -/
def processCtrl (st : ConsoleState) (bc : BufChain) :
    Option (ConsoleState × List OutEvent × Bool) :=
  let port := rd32 bc.data 0
  let event := rd16 bc.data 4
  let ack : OutEvent := OutEvent.reply 3 bc.id []
  if event = VIRTIO_CONSOLE_DEVICE_READY then
    match sendDeviceAdds st 0 st.ports with
    | none => none
    | some (st1, es) => some (st1, ack :: es, true)
  else if event = VIRTIO_CONSOLE_PORT_READY then
    match
      (if consoleBit st.consolePortEnable port then
        match SendEvent st port VIRTIO_CONSOLE_CONSOLE_PORT 1 with
        | none => none
        | some (st1, e) => some (st1, [e])
      else some (st, ([] : List OutEvent))) with
    | none => none
    | some (st1, es1) =>
      match SendName st1 port (portName port) with
      | none => none
      | some (st2, e2) =>
        match SendEvent st2 port VIRTIO_CONSOLE_PORT_OPEN 1 with
        | none => none
        | some (st3, e3) => some (st3, ack :: ack :: (es1 ++ [e2, e3]), true)
  else if event = VIRTIO_CONSOLE_PORT_OPEN then
    if port = 0 then
      match SendWindowSize st port with
      | none => none
      | some (st1, e1) => some (st1, [ack, ack, e1], true)
    else some (st, [ack, ack], true)
  else some (st, [ack], false)

/-- Control-transmit notification handler (queue 3): drain the pending
requests front to back; a `false` continuation flag stops the drain, leaving
the remaining requests pending (returned as the third component). -/
def handler3 : ConsoleState → List BufChain → Option (ConsoleState × List OutEvent × List BufChain)
  | st, [] => some (st, [], [])
  | st, bc :: rest =>
    match processCtrl st bc with
    | none => none
    | some (st1, es, true) =>
      match handler3 st1 rest with
      | none => none
      | some (st2, es2, left) => some (st2, es ++ es2, left)
    | some (st1, es, false) => some (st1, es, rest)

/-- Ring-fullness trim loop `while (queue.count_requests() > threshold)
queue.pop_request();` over the FIFO of pending requests (oldest first);
popped requests are discarded. -/
def ringTrim (threshold : Nat) : List BufChain → List BufChain
  | [] => []
  | bc :: rest => if rest.length + 1 > threshold then ringTrim threshold rest else bc :: rest

/-- Notification handler at notify offset 0 (queue 0 and every PortN receive
queue): trim the pending requests to at most `size - 2`; nothing is replied. -/
def handler0 (size : Nat) (q : List BufChain) : List BufChain := ringTrim (size - 2) q

/-- Notification handler at notify offset 2: guard `queue_id != 2` (production
`dbg_assert` is a no-op, then `return`), else the same trim loop. -/
def handler2 (queue_id size : Nat) (q : List BufChain) : List BufChain :=
  if queue_id ≠ 2 then q else ringTrim (size - 2) q

/-- Port derived by the transmit-forward handler:
`queue_id > 3 ? (queue_id-3 >> 1) : 0`. -/
def transmitPort (queue_id : Nat) : Nat := if queue_id > 3 then (queue_id - 3) / 2 else 0

/-- Transmit-forward notification handler (notify offset 1): for each pending
request in ring order, publish its full readable payload on the port's
output-bytes channel, then `Ack` the bufchain with a zero-length reply. -/
def handler1 (queue_id : Nat) : List BufChain → List OutEvent
  | [] => []
  | bc :: rest =>
    OutEvent.busSend ("virtio-console" ++ toString (transmitPort queue_id) ++ "-output-bytes")
        bc.data ::
      OutEvent.reply queue_id bc.id [] :: handler1 queue_id rest

/-- Queue index computed for a port's receive queue when registering the
input-bytes bus handler: `port == 0 ? 0 : port * 2 + 2`. -/
def queueIndexOfPort (port : Nat) : Nat := if port = 0 then 0 else port * 2 + 2

/-- Input-bytes bus handler for one port: if the receive queue has a pending
request, pop it and `Send` the data as its reply; otherwise drop the bytes. -/
def inputBytesHandler (q : List BufChain) (queue_index : Nat) (data : List Nat) :
    List BufChain × List OutEvent :=
  match q with
  | [] => (q, [])
  | bc :: rest => (rest, [OutEvent.reply queue_index bc.id data])

/-- Resize bus handler for one port: `cols = size[0]; rows = size[1]`, then
send the (new) window size iff queue 2 has a pending request.  A queue that is
not configured holds no posted buffers, so `is_configured() && has_request()`
is modelled as the pending FIFO being nonempty. -/
def resizeHandler (st : ConsoleState) (port size0 size1 : Nat) :
    Option (ConsoleState × List OutEvent) :=
  let st1 := { st with cols := size0, rows := size1 }
  if st1.ctrlRecvBufs ≠ [] then
    match SendWindowSize st1 port with
    | none => none
    | some (st2, e) => some (st2, [e])
  else some (st1, [])

/-- Blobs of the control messages a trace emits on queue 2, in order. -/
def sentMsgs (tr : List OutEvent) : List (List Nat) :=
  tr.filterMap fun e =>
    match e with
    | OutEvent.reply q _ blob => if q = 2 then some blob else none
    | _ => none

/-- All replies in a trace, in order, as (queue, handle, blob) triples. -/
def replyList (tr : List OutEvent) : List (Nat × Nat × List Nat) :=
  tr.filterMap fun e =>
    match e with
    | OutEvent.reply q b blob => some (q, b, blob)
    | _ => none

/-- All bus publishes in a trace, in order, as (channel, blob) pairs. -/
def busList (tr : List OutEvent) : List (String × List Nat) :=
  tr.filterMap fun e =>
    match e with
    | OutEvent.busSend c blob => some (c, blob)
    | _ => none

/-- Number of zero-length acknowledgments a trace pushes onto queue `qid` for
the buffer-chain handle `bid`. -/
def ackCount (qid bid : Nat) (tr : List OutEvent) : Nat :=
  tr.count (OutEvent.reply qid bid [])

/-- Parsing the marshalled header recovers the port field (low 32 bits). -/
lemma rd32_ctrlHeader (p e v : Nat) : rd32 (ctrlHeader p e v) 0 = p % 2 ^ 32 := by
  simp [ctrlHeader, rd32, rdByte, le32, le16, List.getD_cons_zero, List.getD_cons_succ]
  omega

/-- Parsing the marshalled header recovers the event field (low 16 bits). -/
lemma rd16_event (p e v : Nat) : rd16 (ctrlHeader p e v) 4 = e % 2 ^ 16 := by
  simp [ctrlHeader, rd16, rdByte, le32, le16, List.getD_cons_zero, List.getD_cons_succ]
  omega

/-- Name built for a small port number is the plain decimal form. -/
lemma portName_small (p : Nat) (h : p < 2 ^ 31) : portName p = "virtio-" ++ toString p := by
  unfold portName toInt32
  rw [Nat.mod_eq_of_lt (show p < 2 ^ 32 by omega), if_pos h,
    Int.emod_eq_of_lt (Int.natCast_nonneg p) (by exact_mod_cast (show p < 2 ^ 32 by omega))]
  rfl

/-- Console-bit test agrees with `Nat.testBit` for port numbers below 32. -/
lemma consoleBit_eq_testBit (mask p : Nat) (h : p < 32) :
    consoleBit mask p = mask.testBit p := by
  have hm : p % 32 = p := Nat.mod_eq_of_lt h
  unfold consoleBit
  rw [hm, Nat.two_pow_and]
  cases htb : mask.testBit p
  · simp [htb]
  · simp only [htb, Bool.toNat_true, mul_one, bne_iff_ne, ne_eq]
    exact pow_ne_zero p (by omega)

/-- Handler on a single pending request reduces to one `processCtrl` step. -/
lemma handler3_single (st : ConsoleState) (bc : BufChain) :
    handler3 st [bc] =
      (processCtrl st bc).map fun r => (r.1, r.2.1, ([] : List BufChain)) := by
  cases hp : processCtrl st bc with
  | none => simp [handler3, hp]
  | some r =>
    obtain ⟨st1, es, cont⟩ := r
    cases cont <;> simp [handler3, hp]

/-- Reply produced by a successful control-queue send is a queue-2 reply
carrying exactly the given blob. -/
lemma sendOnCtrl_shape (st : ConsoleState) (blob : List Nat) (st1 : ConsoleState)
    (e : OutEvent) (h : sendOnCtrl st blob = some (st1, e)) :
    ∃ b, e = OutEvent.reply 2 b blob ∧ st.ctrlRecvBufs = b :: st1.ctrlRecvBufs := by
  unfold sendOnCtrl at h
  cases hq : st.ctrlRecvBufs with
  | nil => rw [hq] at h; cases h
  | cons b rest =>
    rw [hq] at h
    simp only [Option.some.injEq, Prod.mk.injEq] at h
    obtain ⟨h1, h2⟩ := h
    subst h1
    exact ⟨b, h2.symm, by simp [hq]⟩

/-- Every event in a successful `sendDeviceAdds` trace is a queue-2 reply. -/
lemma sendDeviceAdds_mem :
    ∀ (count i : Nat) (st stA : ConsoleState) (es : List OutEvent),
      sendDeviceAdds st i count = some (stA, es) →
      ∀ e ∈ es, ∃ b blob, e = OutEvent.reply 2 b blob
  | 0, i, st, stA, es, h => by
    simp only [sendDeviceAdds, Option.some.injEq, Prod.mk.injEq] at h
    rw [← h.2]
    intro e he
    cases he
  | count + 1, i, st, stA, es, h => by
    simp only [sendDeviceAdds] at h
    cases hse : SendEvent st i VIRTIO_CONSOLE_DEVICE_ADD 0 with
    | none => simp only [hse] at h; exact Option.noConfusion h
    | some r1 =>
      obtain ⟨st1, e1⟩ := r1
      simp only [hse] at h
      cases hrec : sendDeviceAdds st1 (i + 1) count with
      | none => simp only [hrec] at h; exact Option.noConfusion h
      | some r2 =>
        obtain ⟨st2, es2⟩ := r2
        simp only [hrec, Option.some.injEq, Prod.mk.injEq] at h
        rw [← h.2]
        intro e he
        rcases List.mem_cons.mp he with rfl | hmem
        · obtain ⟨b, hb, -⟩ := sendOnCtrl_shape _ _ _ _ hse
          exact ⟨b, _, hb⟩
        · exact sendDeviceAdds_mem count (i + 1) st1 st2 es2 hrec e hmem

/-- Trace containing only queue-2 replies holds no queue-3 acknowledgment. -/
lemma ackCount_eq_zero_of_q2 (bid : Nat) (es : List OutEvent)
    (h : ∀ e ∈ es, ∃ b blob, e = OutEvent.reply 2 b blob) :
    ackCount 3 bid es = 0 := by
  unfold ackCount
  rw [List.count_eq_zero]
  intro hmem
  obtain ⟨b, blob, heq⟩ := h _ hmem
  simp at heq

/-- Trim loop leaves at most `threshold` requests pending. -/
lemma ringTrim_length_le (threshold : Nat) :
    ∀ q : List BufChain, (ringTrim threshold q).length ≤ threshold
  | [] => Nat.zero_le _
  | bc :: rest => by
    unfold ringTrim
    split
    · exact ringTrim_length_le threshold rest
    · simp only [List.length_cons]
      omega

/-- Trim loop only drops from the front: the survivors are a suffix. -/
lemma ringTrim_suffix (threshold : Nat) :
    ∀ q : List BufChain, ringTrim threshold q <:+ q
  | [] => List.suffix_refl []
  | bc :: rest => by
    unfold ringTrim
    split
    · exact (ringTrim_suffix threshold rest).trans (List.suffix_cons bc rest)
    · exact List.suffix_refl _

/-- Trim loop does nothing when the pending count is within the threshold. -/
lemma ringTrim_eq_self (threshold : Nat) (q : List BufChain) (h : q.length ≤ threshold) :
    ringTrim threshold q = q := by
  cases q with
  | nil => rfl
  | cons bc rest =>
    unfold ringTrim
    rw [if_neg]
    simp only [List.length_cons] at h
    omega

/-- Trim loop drops exactly the oldest requests beyond the threshold. -/
lemma ringTrim_eq_drop (threshold : Nat) :
    ∀ q : List BufChain, ringTrim threshold q = q.drop (q.length - threshold)
  | [] => by simp [ringTrim]
  | bc :: rest => by
    unfold ringTrim
    split
    · rename_i hgt
      rw [ringTrim_eq_drop threshold rest]
      have h1 : rest.length + 1 - threshold = (rest.length - threshold) + 1 := by omega
      simp only [List.length_cons, h1, List.drop_succ_cons]
    · rename_i hle
      have h0 : rest.length + 1 - threshold = 0 := by omega
      simp only [List.length_cons, h0, List.drop_zero]

/-- Extra queue pairs have length twice the number of additional ports. -/
lemma extraPairs_length : ∀ n : Nat, (extraPairs n).length = 2 * n
  | 0 => rfl
  | n + 1 => by
    simp only [extraPairs, List.length_append, extraPairs_length n, List.length_cons,
      List.length_nil]
    omega

/-- Entries of the per-port queue pairs: receive (16, offset 0) at even
positions, transmit (8, offset 1) at odd positions. -/
lemma extraPairs_getD : ∀ (n i : Nat), i < 2 * n →
    (extraPairs n).getD i ⟨0, 0⟩ = if i % 2 = 0 then ⟨16, 0⟩ else ⟨8, 1⟩
  | 0, i, h => by omega
  | n + 1, i, h => by
    by_cases hi : i < 2 * n
    · rw [extraPairs, List.getD_append _ _ _ _ (by rw [extraPairs_length]; omega)]
      exact extraPairs_getD n i hi
    · rw [extraPairs, List.getD_append_right _ _ _ _ (by rw [extraPairs_length]; omega)]
      rw [extraPairs_length]
      have : i = 2 * n ∨ i = 2 * n + 1 := by omega
      rcases this with rfl | rfl
      · simp only [Nat.sub_self, List.getD_cons_zero]
        rw [if_pos (by omega)]
      · have h1 : 2 * n + 1 - 2 * n = 1 := by omega
        rw [h1]
        simp only [List.getD_cons_succ, List.getD_cons_zero]
        rw [if_neg (by omega)]

/-- Successful device-add loop: pops one control-receive buffer per port and
emits one `DeviceAdd` message per port with ascending port numbers. -/
lemma sendDeviceAdds_eq : ∀ (count i : Nat) (st : ConsoleState),
    count ≤ st.ctrlRecvBufs.length →
    sendDeviceAdds st i count =
      some ({ st with ctrlRecvBufs := st.ctrlRecvBufs.drop count },
        List.zipWith (fun b j => OutEvent.reply 2 b (ctrlHeader j VIRTIO_CONSOLE_DEVICE_ADD 0))
          (st.ctrlRecvBufs.take count) (List.range' i count))
  | 0, i, st, h => by
    simp [sendDeviceAdds]
  | count + 1, i, st, h => by
    cases hq : st.ctrlRecvBufs with
    | nil => rw [hq] at h; simp at h
    | cons b bs =>
      have hcount : count ≤ bs.length := by rw [hq] at h; simp at h; omega
      have hst1 : SendEvent st i VIRTIO_CONSOLE_DEVICE_ADD 0 =
          some ({ st with ctrlRecvBufs := bs },
            OutEvent.reply 2 b (ctrlHeader i VIRTIO_CONSOLE_DEVICE_ADD 0)) := by
        unfold SendEvent sendOnCtrl
        rw [hq]
      rw [sendDeviceAdds, hst1]
      simp only
      rw [sendDeviceAdds_eq count (i + 1) { st with ctrlRecvBufs := bs } hcount]
      simp only [Option.some.injEq, Prod.mk.injEq]
      constructor
      · simp [hq]
      · simp [hq, List.take_succ_cons, List.range'_succ]

/-- Messages extracted from a zipped reply trace are the zipped blobs. -/
lemma sentMsgs_zipWith (g : Nat → List Nat) :
    ∀ (bs js : List Nat), js.length ≤ bs.length →
    sentMsgs (List.zipWith (fun b j => OutEvent.reply 2 b (g j)) bs js) = js.map g
  | _, [], _ => by simp [sentMsgs]
  | [], j :: js, h => by simp at h
  | b :: bs, j :: js, h => by
    simp only [List.zipWith_cons_cons, sentMsgs, List.filterMap_cons, List.map_cons]
    have ih := sentMsgs_zipWith g bs js (by simp at h; omega)
    simp only [sentMsgs] at ih
    simp [ih]
lemma processCtrl_ackCount (st st1 : ConsoleState) (bc : BufChain) (es : List OutEvent)
    (cont : Bool) (h : processCtrl st bc = some (st1, es, cont)) :
    ackCount 3 bc.id es =
      if rd16 bc.data 4 = VIRTIO_CONSOLE_PORT_READY ∨ rd16 bc.data 4 = VIRTIO_CONSOLE_PORT_OPEN
      then 2 else 1 := by
  simp only [processCtrl] at h
  by_cases h0 : rd16 bc.data 4 = VIRTIO_CONSOLE_DEVICE_READY
  · rw [if_pos h0] at h
    rw [if_neg (by rw [h0]; decide)]
    cases hs : sendDeviceAdds st 0 st.ports with
    | none => simp only [hs] at h; exact Option.noConfusion h
    | some r =>
      obtain ⟨stA, esA⟩ := r
      simp only [hs, Option.some.injEq, Prod.mk.injEq] at h
      obtain ⟨-, h2, -⟩ := h
      rw [← h2]
      have hz : ackCount 3 bc.id esA = 0 :=
        ackCount_eq_zero_of_q2 _ _ (sendDeviceAdds_mem _ _ _ _ _ hs)
      simp only [ackCount] at hz ⊢
      simp [List.count_cons, hz]
  · rw [if_neg h0] at h
    by_cases h3 : rd16 bc.data 4 = VIRTIO_CONSOLE_PORT_READY
    · rw [if_pos h3] at h
      rw [if_pos (Or.inl h3)]
      by_cases hcb : consoleBit st.consolePortEnable (rd32 bc.data 0)
      · rw [if_pos hcb] at h
        cases hse : SendEvent st (rd32 bc.data 0) VIRTIO_CONSOLE_CONSOLE_PORT 1 with
        | none => simp only [hse] at h; exact Option.noConfusion h
        | some rA =>
          obtain ⟨stA, e1⟩ := rA
          simp only [hse] at h
          cases hsn : SendName stA (rd32 bc.data 0) (portName (rd32 bc.data 0)) with
          | none => simp only [hsn] at h; exact Option.noConfusion h
          | some rB =>
            obtain ⟨stB, e2⟩ := rB
            simp only [hsn] at h
            cases hso : SendEvent stB (rd32 bc.data 0) VIRTIO_CONSOLE_PORT_OPEN 1 with
            | none => simp only [hso] at h; exact Option.noConfusion h
            | some rC =>
              obtain ⟨stC, e3⟩ := rC
              simp only [hso, Option.some.injEq, Prod.mk.injEq] at h
              obtain ⟨-, h2, -⟩ := h
              rw [← h2]
              unfold SendEvent at hse hso
              unfold SendName at hsn
              obtain ⟨b1, rfl, -⟩ := sendOnCtrl_shape _ _ _ _ hse
              obtain ⟨b2, rfl, -⟩ := sendOnCtrl_shape _ _ _ _ hsn
              obtain ⟨b3, rfl, -⟩ := sendOnCtrl_shape _ _ _ _ hso
              simp [ackCount, List.count_cons]
      · rw [if_neg hcb] at h
        cases hsn : SendName st (rd32 bc.data 0) (portName (rd32 bc.data 0)) with
        | none => simp only [hsn] at h; exact Option.noConfusion h
        | some rB =>
          obtain ⟨stB, e2⟩ := rB
          simp only [hsn] at h
          cases hso : SendEvent stB (rd32 bc.data 0) VIRTIO_CONSOLE_PORT_OPEN 1 with
          | none => simp only [hso] at h; exact Option.noConfusion h
          | some rC =>
            obtain ⟨stC, e3⟩ := rC
            simp only [hso, Option.some.injEq, Prod.mk.injEq] at h
            obtain ⟨-, h2, -⟩ := h
            rw [← h2]
            unfold SendEvent at hso
            unfold SendName at hsn
            obtain ⟨b2, rfl, -⟩ := sendOnCtrl_shape _ _ _ _ hsn
            obtain ⟨b3, rfl, -⟩ := sendOnCtrl_shape _ _ _ _ hso
            simp [ackCount, List.count_cons]
    · rw [if_neg h3] at h
      by_cases h6 : rd16 bc.data 4 = VIRTIO_CONSOLE_PORT_OPEN
      · rw [if_pos h6] at h
        rw [if_pos (Or.inr h6)]
        by_cases hp0 : rd32 bc.data 0 = 0
        · rw [if_pos hp0] at h
          cases hsw : SendWindowSize st (rd32 bc.data 0) with
          | none => simp only [hsw] at h; exact Option.noConfusion h
          | some rD =>
            obtain ⟨stD, e1⟩ := rD
            simp only [hsw, Option.some.injEq, Prod.mk.injEq] at h
            obtain ⟨-, h2, -⟩ := h
            rw [← h2]
            unfold SendWindowSize at hsw
            obtain ⟨b1, rfl, -⟩ := sendOnCtrl_shape _ _ _ _ hsw
            simp [ackCount, List.count_cons]
        · rw [if_neg hp0] at h
          simp only [Option.some.injEq, Prod.mk.injEq] at h
          obtain ⟨-, h2, -⟩ := h
          rw [← h2]
          simp [ackCount, List.count_cons]
      · rw [if_neg h6] at h
        rw [if_neg (by simp [h0, h3, h6])]
        simp only [Option.some.injEq, Prod.mk.injEq] at h
        obtain ⟨-, h2, -⟩ := h
        rw [← h2]
        simp [ackCount, List.count_cons]

/-- C1 counterexample: a single `PortReady` control message popped from queue 3
is acknowledged twice (once generically before the `switch`, once again inside
its branch), refuting "acknowledged exactly once regardless of its event
code". -/
theorem c1_counterexample :
    (handler3 ⟨25, 80, 4, 15, [20, 21, 22]⟩
        [⟨9, ctrlHeader 1 VIRTIO_CONSOLE_PORT_READY 0⟩]).map
      (fun r => ackCount 3 9 r.2.1) = some 2 := by decide

/-- C1 (amended): when the queue-3 handler processes one popped control
message to completion, the message's buffer chain receives exactly one
zero-length acknowledgment if its event is `DeviceReady` or unrecognized, and
exactly two if its event is `PortReady` or `PortOpen` (the double-acknowledge
defect); buffers popped for emission on queue 2 are each returned exactly once
with their message (see the trace shape), and requests popped by the
ring-fullness safeguard are discarded, never returned (see the ring-safeguard
theorems). -/
theorem c1_ack_discipline (st st' : ConsoleState) (bc : BufChain) (tr : List OutEvent)
    (left : List BufChain) (h : handler3 st [bc] = some (st', tr, left)) :
    ackCount 3 bc.id tr =
      if rd16 bc.data 4 = VIRTIO_CONSOLE_PORT_READY ∨ rd16 bc.data 4 = VIRTIO_CONSOLE_PORT_OPEN
      then 2 else 1 := by
  rw [handler3_single] at h
  cases hp : processCtrl st bc with
  | none => rw [hp] at h; exact Option.noConfusion h
  | some r =>
    obtain ⟨st1, es, cont⟩ := r
    rw [hp] at h
    simp only [Option.map_some', Option.some.injEq, Prod.mk.injEq] at h
    obtain ⟨-, h2, -⟩ := h
    rw [← h2]
    exact processCtrl_ackCount _ _ _ _ _ hp

/-- Witness for `c1_ack_discipline` at a concrete `PortReady` message. -/
theorem c1_ack_discipline_witness :
    handler3 ⟨25, 80, 4, 15, [30, 31, 32]⟩ [⟨7, ctrlHeader 0 VIRTIO_CONSOLE_PORT_READY 2⟩] =
        some (⟨25, 80, 4, 15, []⟩,
          [OutEvent.reply 3 7 [], OutEvent.reply 3 7 [],
            OutEvent.reply 2 30 (ctrlHeader 0 VIRTIO_CONSOLE_CONSOLE_PORT 1),
            OutEvent.reply 2 31
              (ctrlHeader 0 VIRTIO_CONSOLE_PORT_NAME 1 ++ strBytes "virtio-0" ++ [0]),
            OutEvent.reply 2 32 (ctrlHeader 0 VIRTIO_CONSOLE_PORT_OPEN 1)], []) ∧
      ackCount 3 7
          [OutEvent.reply 3 7 [], OutEvent.reply 3 7 [],
            OutEvent.reply 2 30 (ctrlHeader 0 VIRTIO_CONSOLE_CONSOLE_PORT 1),
            OutEvent.reply 2 31
              (ctrlHeader 0 VIRTIO_CONSOLE_PORT_NAME 1 ++ strBytes "virtio-0" ++ [0]),
            OutEvent.reply 2 32 (ctrlHeader 0 VIRTIO_CONSOLE_PORT_OPEN 1)] =
        if rd16 (ctrlHeader 0 VIRTIO_CONSOLE_PORT_READY 2) 4 = VIRTIO_CONSOLE_PORT_READY ∨
            rd16 (ctrlHeader 0 VIRTIO_CONSOLE_PORT_READY 2) 4 = VIRTIO_CONSOLE_PORT_OPEN
        then 2 else 1 :=
  ⟨by decide,
    c1_ack_discipline ⟨25, 80, 4, 15, [30, 31, 32]⟩ ⟨25, 80, 4, 15, []⟩
      ⟨7, ctrlHeader 0 VIRTIO_CONSOLE_PORT_READY 2⟩
      [OutEvent.reply 3 7 [], OutEvent.reply 3 7 [],
        OutEvent.reply 2 30 (ctrlHeader 0 VIRTIO_CONSOLE_CONSOLE_PORT 1),
        OutEvent.reply 2 31
          (ctrlHeader 0 VIRTIO_CONSOLE_PORT_NAME 1 ++ strBytes "virtio-0" ++ [0]),
        OutEvent.reply 2 32 (ctrlHeader 0 VIRTIO_CONSOLE_PORT_OPEN 1)] [] (by decide)⟩

/-- C2 counterexample: a capacity-16 receive queue holding exactly
`capacity − 2 = 14` pending requests is left untouched by the safeguard,
refuting "whenever the count reaches capacity − 2, the oldest outstanding
request is popped". -/
theorem c2_counterexample :
    ((List.range 14).map fun i => (⟨i, []⟩ : BufChain)).length = 16 - 2 ∧
      handler0 16 ((List.range 14).map fun i => (⟨i, []⟩ : BufChain)) =
        (List.range 14).map fun i => (⟨i, []⟩ : BufChain) := by decide

/-- C2 (amended): on a receive-availability notification the safeguard pops
and discards the oldest pending requests only while the count exceeds
`capacity − 2`; afterwards at most `capacity − 2` requests remain, the
survivors are the most recently posted ones in order (a suffix), a count
already within the threshold is left untouched, and the queue-2 variant of
the handler behaves identically. -/
theorem c2_ring_safeguard (size : Nat) (q : List BufChain) :
    (handler0 size q).length ≤ size - 2 ∧
      handler0 size q <:+ q ∧
      (q.length ≤ size - 2 → handler0 size q = q) ∧
      handler0 size q = q.drop (q.length - (size - 2)) ∧
      handler2 2 size q = handler0 size q :=
  ⟨ringTrim_length_le _ q, ringTrim_suffix _ q, fun h => ringTrim_eq_self _ q h,
    ringTrim_eq_drop _ q, by simp [handler2, handler0]⟩

/-- Witness for `c2_ring_safeguard` on a concrete small queue. -/
theorem c2_ring_safeguard_witness :
    ([⟨0, []⟩] : List BufChain).length ≤ 16 - 2 ∧ handler0 16 [⟨0, []⟩] = [⟨0, []⟩] :=
  ⟨by decide, (c2_ring_safeguard 16 [⟨0, []⟩]).2.2.1 (by decide)⟩

/-- C10: every queue is declared with capacity 16 except the transmit queue of
each additional port (odd declaration index ≥ 4), declared with capacity 8;
hence the safeguard threshold `capacity − 2` is 14 for queue index 2 and for
every PortN receive queue (index `2p + 2` for port `p ≥ 1`). -/
theorem c10_queue_capacities (N : Nat) :
    (queueDecls N).length = 4 + 2 * (N - 1) ∧
      (∀ i, i < (queueDecls N).length →
        ((queueDecls N).getD i ⟨0, 0⟩).size_supported = if 4 ≤ i ∧ i % 2 = 1 then 8 else 16) ∧
      ((queueDecls N).getD 2 ⟨0, 0⟩).size_supported - 2 = 14 ∧
      (∀ p, 1 ≤ p → p < N →
        (queueDecls N).getD (2 * p + 2) ⟨0, 0⟩ = ⟨16, 0⟩ ∧
          ((queueDecls N).getD (2 * p + 2) ⟨0, 0⟩).size_supported - 2 = 14 ∧
          (queueDecls N).getD (2 * p + 3) ⟨0, 0⟩ = ⟨8, 1⟩) := by
  have hlen : (queueDecls N).length = 4 + 2 * (N - 1) := by
    simp [queueDecls, baseQueues, extraPairs_length]
    omega
  refine ⟨hlen, ?_, ?_, ?_⟩
  · intro i hi
    rw [hlen] at hi
    by_cases h4 : i < 4
    · rw [queueDecls, List.getD_append _ _ _ _ (by simp [baseQueues]; omega)]
      rw [if_neg (by omega)]
      interval_cases i <;> rfl
    · rw [queueDecls,
        List.getD_append_right _ _ _ _ (by simp [baseQueues]; omega),
        show baseQueues.length = 4 from rfl,
        extraPairs_getD (N - 1) (i - 4) (by omega)]
      by_cases hpar : i % 2 = 1
      · rw [if_neg (by omega), if_pos ⟨by omega, hpar⟩]
      · rw [if_pos (by omega), if_neg (fun hc => hpar hc.2)]
  · rfl
  · intro p h1 hN
    have hrecv : (queueDecls N).getD (2 * p + 2) ⟨0, 0⟩ = ⟨16, 0⟩ := by
      rw [queueDecls,
        List.getD_append_right _ _ _ _ (by simp [baseQueues]; omega),
        show baseQueues.length = 4 from rfl,
        extraPairs_getD (N - 1) (2 * p + 2 - 4) (by omega)]
      rw [if_pos (by omega)]
    have hxmit : (queueDecls N).getD (2 * p + 3) ⟨0, 0⟩ = ⟨8, 1⟩ := by
      rw [queueDecls,
        List.getD_append_right _ _ _ _ (by simp [baseQueues]; omega),
        show baseQueues.length = 4 from rfl,
        extraPairs_getD (N - 1) (2 * p + 3 - 4) (by omega)]
      rw [if_neg (by omega)]
    exact ⟨hrecv, by rw [hrecv]; rfl, hxmit⟩

/-- Witness for `c10_queue_capacities` at a two-port device, port 1. -/
theorem c10_queue_capacities_witness :
    1 ≤ 1 ∧ 1 < 2 ∧ (queueDecls 2).getD (2 * 1 + 2) ⟨0, 0⟩ = ⟨16, 0⟩ :=
  ⟨by decide, by decide, ((c10_queue_capacities 2).2.2.2 1 (by decide) (by decide)).1⟩

/-- C3: on `PortReady(p, v)` for a port `p` (p < 32) whose console bit is set
in `consolePortEnable`, the device emits on queue 2 exactly the sequence
`ConsolePort(p,1)`, `PortName(p,1,"virtio-"+p)`, `PortOpen(p,1)` in that
order; for a port with the console bit unset the `ConsolePort` message is
omitted and the other two are emitted in the same order (the full output
trace, including the two acknowledgments on queue 3, is given explicitly). -/
theorem c3_port_ready_sequence (st : ConsoleState) (bid p v b1 b2 b3 : Nat) (rest : List Nat)
    (hb : st.ctrlRecvBufs = b1 :: b2 :: b3 :: rest) (hp : p < 32) :
    (st.consolePortEnable.testBit p = true →
      handler3 st [⟨bid, ctrlHeader p VIRTIO_CONSOLE_PORT_READY v⟩] =
        some ({ st with ctrlRecvBufs := rest },
          [OutEvent.reply 3 bid [], OutEvent.reply 3 bid [],
            OutEvent.reply 2 b1 (ctrlHeader p VIRTIO_CONSOLE_CONSOLE_PORT 1),
            OutEvent.reply 2 b2
              (ctrlHeader p VIRTIO_CONSOLE_PORT_NAME 1 ++
                strBytes ("virtio-" ++ toString p) ++ [0]),
            OutEvent.reply 2 b3 (ctrlHeader p VIRTIO_CONSOLE_PORT_OPEN 1)], [])) ∧
    (st.consolePortEnable.testBit p = false →
      handler3 st [⟨bid, ctrlHeader p VIRTIO_CONSOLE_PORT_READY v⟩] =
        some ({ st with ctrlRecvBufs := b3 :: rest },
          [OutEvent.reply 3 bid [], OutEvent.reply 3 bid [],
            OutEvent.reply 2 b1
              (ctrlHeader p VIRTIO_CONSOLE_PORT_NAME 1 ++
                strBytes ("virtio-" ++ toString p) ++ [0]),
            OutEvent.reply 2 b2 (ctrlHeader p VIRTIO_CONSOLE_PORT_OPEN 1)], [])) := by
  have hport : rd32 (ctrlHeader p VIRTIO_CONSOLE_PORT_READY v) 0 = p := by
    rw [rd32_ctrlHeader]; exact Nat.mod_eq_of_lt (by omega)
  have hev : rd16 (ctrlHeader p VIRTIO_CONSOLE_PORT_READY v) 4 = VIRTIO_CONSOLE_PORT_READY := by
    rw [rd16_event]; decide
  have hname : portName p = "virtio-" ++ toString p := portName_small p (by omega)
  constructor <;> intro htb
  · have hcb : consoleBit st.consolePortEnable p = true := by
      rw [consoleBit_eq_testBit _ _ hp]; exact htb
    rw [handler3_single]
    simp only [processCtrl]
    rw [hport, hev, if_neg (by decide), if_pos rfl, hcb, if_pos rfl]
    simp [SendName, SendEvent, sendOnCtrl, hb, hname]
  · have hcb : consoleBit st.consolePortEnable p = false := by
      rw [consoleBit_eq_testBit _ _ hp]; exact htb
    rw [handler3_single]
    simp only [processCtrl]
    rw [hport, hev, if_neg (by decide), if_pos rfl, hcb, if_neg (by simp)]
    simp [SendName, SendEvent, sendOnCtrl, hb, hname]

/-- C4: a single `DeviceReady` control message makes the device emit exactly
`ports` `DeviceAdd` messages on queue 2, with port fields exactly
`0..ports-1` in ascending order and value 0, one per popped reply buffer. -/
theorem c4_device_ready (st : ConsoleState) (bid pf v : Nat)
    (hN : st.ports ≤ st.ctrlRecvBufs.length) :
    handler3 st [⟨bid, ctrlHeader pf VIRTIO_CONSOLE_DEVICE_READY v⟩] =
        some ({ st with ctrlRecvBufs := st.ctrlRecvBufs.drop st.ports },
          OutEvent.reply 3 bid [] ::
            List.zipWith (fun b j => OutEvent.reply 2 b (ctrlHeader j VIRTIO_CONSOLE_DEVICE_ADD 0))
              (st.ctrlRecvBufs.take st.ports) (List.range st.ports), []) ∧
      sentMsgs
          (OutEvent.reply 3 bid [] ::
            List.zipWith (fun b j => OutEvent.reply 2 b (ctrlHeader j VIRTIO_CONSOLE_DEVICE_ADD 0))
              (st.ctrlRecvBufs.take st.ports) (List.range st.ports)) =
        (List.range st.ports).map (fun j => ctrlHeader j VIRTIO_CONSOLE_DEVICE_ADD 0) := by
  have hev : rd16 (ctrlHeader pf VIRTIO_CONSOLE_DEVICE_READY v) 4 =
      VIRTIO_CONSOLE_DEVICE_READY := by
    rw [rd16_event]; decide
  have hzip := sentMsgs_zipWith (fun j => ctrlHeader j VIRTIO_CONSOLE_DEVICE_ADD 0)
    (st.ctrlRecvBufs.take st.ports) (List.range st.ports)
    (by simp [List.length_take, List.length_range]; omega)
  constructor
  · rw [handler3_single]
    simp only [processCtrl, hev, if_pos rfl]
    rw [List.range_eq_range', sendDeviceAdds_eq st.ports 0 st hN]
    simp
  · simp only [sentMsgs, List.filterMap_cons] at hzip ⊢
    simp [hzip]

/-- C5: after construction with `rows = 30`, `cols = 100`, a `PortOpen(0, v)`
control message emits exactly one `Resize` message for port 0 with value 0 and
trailing fields rows = 30, cols = 100 taken from device state at send time; a
`PortOpen(p, v)` with `p` nonzero emits no message on queue 2. -/
theorem c5_initial_size (opts : ConsoleOptions) (hrows : opts.rows = some 30)
    (hcols : opts.cols = some 100) (bid v p b : Nat) (bs : List Nat) :
    handler3 { initConsole opts with ctrlRecvBufs := b :: bs }
          [⟨bid, ctrlHeader 0 VIRTIO_CONSOLE_PORT_OPEN v⟩] =
        some ({ initConsole opts with ctrlRecvBufs := bs },
          [OutEvent.reply 3 bid [], OutEvent.reply 3 bid [],
            OutEvent.reply 2 b
              (ctrlHeader 0 VIRTIO_CONSOLE_RESIZE 0 ++ le16 30 ++ le16 100)], []) ∧
      (p ≠ 0 → p < 2 ^ 32 → ∀ st2 : ConsoleState,
        handler3 st2 [⟨bid, ctrlHeader p VIRTIO_CONSOLE_PORT_OPEN v⟩] =
          some (st2, [OutEvent.reply 3 bid [], OutEvent.reply 3 bid []], [])) := by
  constructor
  · have hev : rd16 (ctrlHeader 0 VIRTIO_CONSOLE_PORT_OPEN v) 4 = VIRTIO_CONSOLE_PORT_OPEN := by
      rw [rd16_event]; decide
    have hport : rd32 (ctrlHeader 0 VIRTIO_CONSOLE_PORT_OPEN v) 0 = 0 := by
      rw [rd32_ctrlHeader]; exact Nat.zero_mod _
    rw [handler3_single]
    simp only [processCtrl]
    rw [hport, hev, if_neg (by decide), if_neg (by decide), if_pos rfl, if_pos rfl]
    simp [SendWindowSize, sendOnCtrl, initConsole, hrows, hcols]
  · intro hp hlt st2
    have hev : rd16 (ctrlHeader p VIRTIO_CONSOLE_PORT_OPEN v) 4 = VIRTIO_CONSOLE_PORT_OPEN := by
      rw [rd16_event]; decide
    have hport : rd32 (ctrlHeader p VIRTIO_CONSOLE_PORT_OPEN v) 0 = p := by
      rw [rd32_ctrlHeader]; exact Nat.mod_eq_of_lt hlt
    rw [handler3_single]
    simp only [processCtrl]
    rw [hport, hev, if_neg (by decide), if_neg (by decide), if_pos rfl, if_neg hp]
    simp

/-- C6: a transmit-queue notification publishes each pending request's byte
payload unmodified, in ring order, exactly once on the channel
`"virtio-console" + p + "-output-bytes"`, and acknowledges each triggering
buffer chain with a zero-length reply; the derived port is 0 for queue 1 and
`p` for the transmit queue `2p + 3` of each additional port `p ≥ 1`. -/
theorem c6_transmit_forwarding (queue_id : Nat) (reqs : List BufChain) :
    busList (handler1 queue_id reqs) =
        reqs.map (fun bc =>
          ("virtio-console" ++ toString (transmitPort queue_id) ++ "-output-bytes", bc.data)) ∧
      replyList (handler1 queue_id reqs) =
        reqs.map (fun bc => (queue_id, bc.id, ([] : List Nat))) ∧
      transmitPort 1 = 0 ∧
      (∀ prt, 1 ≤ prt → transmitPort (2 * prt + 3) = prt) := by
  refine ⟨?_, ?_, rfl, ?_⟩
  · induction reqs with
    | nil => rfl
    | cons bc rest ih =>
      simp only [handler1, busList, List.filterMap_cons, List.map_cons]
      simp only [busList] at ih
      simp [ih]
  · induction reqs with
    | nil => rfl
    | cons bc rest ih =>
      simp only [handler1, replyList, List.filterMap_cons, List.map_cons]
      simp only [replyList] at ih
      simp [ih]
  · intro prt h
    rw [transmitPort, if_pos (by omega)]
    omega

/-- C7 counterexample: with an unknown-event message followed by a
`DeviceReady` message pending on queue 3 (and ample reply buffers), the
handler acknowledges and drops the unknown message but returns immediately:
the `DeviceReady` request is left pending and no `DeviceAdd` is emitted,
refuting "the handler still drains all remaining currently-queued requests". -/
theorem c7_counterexample :
    handler3 ⟨25, 80, 4, 15, [10, 11, 12, 13]⟩
        [⟨1, ctrlHeader 0 VIRTIO_CONSOLE_DEVICE_REMOVE 0⟩,
          ⟨2, ctrlHeader 0 VIRTIO_CONSOLE_DEVICE_READY 0⟩] =
      some (⟨25, 80, 4, 15, [10, 11, 12, 13]⟩, [OutEvent.reply 3 1 []],
        [⟨2, ctrlHeader 0 VIRTIO_CONSOLE_DEVICE_READY 0⟩]) := by decide

/-- C7 (amended): a control message whose event is not `DeviceReady`,
`PortReady` or `PortOpen` is acknowledged once and dropped without being fatal
in production, but the handler then returns immediately, leaving all remaining
queued requests on queue 3 unprocessed. -/
theorem c7_unknown_event_stops (st : ConsoleState) (bc : BufChain) (rest : List BufChain)
    (h0 : rd16 bc.data 4 ≠ VIRTIO_CONSOLE_DEVICE_READY)
    (h3 : rd16 bc.data 4 ≠ VIRTIO_CONSOLE_PORT_READY)
    (h6 : rd16 bc.data 4 ≠ VIRTIO_CONSOLE_PORT_OPEN) :
    handler3 st (bc :: rest) = some (st, [OutEvent.reply 3 bc.id []], rest) := by
  simp [handler3, processCtrl, h0, h3, h6]

/-- Witness for `c7_unknown_event_stops` at a concrete `DeviceRemove` message. -/
theorem c7_unknown_event_stops_witness :
    rd16 (ctrlHeader 0 VIRTIO_CONSOLE_DEVICE_REMOVE 0) 4 ≠ VIRTIO_CONSOLE_DEVICE_READY ∧
      handler3 ⟨25, 80, 4, 15, [10]⟩
          [⟨1, ctrlHeader 0 VIRTIO_CONSOLE_DEVICE_REMOVE 0⟩, ⟨2, []⟩] =
        some (⟨25, 80, 4, 15, [10]⟩, [OutEvent.reply 3 1 []], [⟨2, []⟩]) :=
  ⟨by decide,
    c7_unknown_event_stops ⟨25, 80, 4, 15, [10]⟩ ⟨1, ctrlHeader 0 VIRTIO_CONSOLE_DEVICE_REMOVE 0⟩
      [⟨2, []⟩] (by decide) (by decide) (by decide)⟩

/-- C8: a host-originated resize event for port `p` always updates the shared
`cols`/`rows` (in that order from the size pair); if queue 2 has at least one
posted buffer a `Resize` message for `p` with value 0 and the new rows/cols is
sent immediately, otherwise no message is sent while the state update still
takes effect. -/
theorem c8_resize_propagation (st : ConsoleState) (port size0 size1 : Nat) :
    resizeHandler st port size0 size1 =
      match st.ctrlRecvBufs with
      | [] => some ({ st with cols := size0, rows := size1 }, [])
      | b :: bs =>
        some ({ st with cols := size0, rows := size1, ctrlRecvBufs := bs },
          [OutEvent.reply 2 b
            (ctrlHeader port VIRTIO_CONSOLE_RESIZE 0 ++ le16 size1 ++ le16 size0)]) := by
  cases hq : st.ctrlRecvBufs with
  | nil => simp [resizeHandler, hq]
  | cons b bs => simp [resizeHandler, hq, SendWindowSize, sendOnCtrl]

/-- C9: a host input-bytes event for a port whose receive queue has no posted
buffer produces no reply and no crash: the bytes are dropped and the queue is
unchanged. -/
theorem c9_drop_on_empty (p : Nat) (data : List Nat) :
    inputBytesHandler [] (queueIndexOfPort p) data = ([], []) := rfl

/-- Witness for `c3_port_ready_sequence` at port 1 of the default device. -/
theorem c3_port_ready_sequence_witness :
    (⟨25, 80, 4, 15, [10, 11, 12, 13]⟩ : ConsoleState).ctrlRecvBufs =
        10 :: 11 :: 12 :: [13] ∧
      Nat.testBit 15 1 = true ∧
      handler3 ⟨25, 80, 4, 15, [10, 11, 12, 13]⟩
          [⟨5, ctrlHeader 1 VIRTIO_CONSOLE_PORT_READY 0⟩] =
        some (⟨25, 80, 4, 15, [13]⟩,
          [OutEvent.reply 3 5 [], OutEvent.reply 3 5 [],
            OutEvent.reply 2 10 (ctrlHeader 1 VIRTIO_CONSOLE_CONSOLE_PORT 1),
            OutEvent.reply 2 11
              (ctrlHeader 1 VIRTIO_CONSOLE_PORT_NAME 1 ++
                strBytes ("virtio-" ++ toString 1) ++ [0]),
            OutEvent.reply 2 12 (ctrlHeader 1 VIRTIO_CONSOLE_PORT_OPEN 1)], []) :=
  ⟨rfl, by decide,
    (c3_port_ready_sequence ⟨25, 80, 4, 15, [10, 11, 12, 13]⟩ 5 1 0 10 11 12 [13]
      rfl (by decide)).1 (by decide)⟩

/-- Witness for `c4_device_ready` on a two-port device. -/
theorem c4_device_ready_witness :
    (⟨25, 80, 2, 15, [40, 41]⟩ : ConsoleState).ports ≤
        (⟨25, 80, 2, 15, [40, 41]⟩ : ConsoleState).ctrlRecvBufs.length ∧
      handler3 ⟨25, 80, 2, 15, [40, 41]⟩ [⟨3, ctrlHeader 9 VIRTIO_CONSOLE_DEVICE_READY 0⟩] =
        some (⟨25, 80, 2, 15, []⟩,
          OutEvent.reply 3 3 [] ::
            List.zipWith
              (fun b j => OutEvent.reply 2 b (ctrlHeader j VIRTIO_CONSOLE_DEVICE_ADD 0))
              (List.take 2 [40, 41]) (List.range 2), []) :=
  ⟨by decide, (c4_device_ready ⟨25, 80, 2, 15, [40, 41]⟩ 3 9 0 (by decide)).1⟩

/-- Witness for `c5_initial_size` with one posted control-receive buffer. -/
theorem c5_initial_size_witness :
    (⟨some 30, some 100, none, none⟩ : ConsoleOptions).rows = some 30 ∧
      handler3 { initConsole ⟨some 30, some 100, none, none⟩ with ctrlRecvBufs := [50] }
          [⟨4, ctrlHeader 0 VIRTIO_CONSOLE_PORT_OPEN 1⟩] =
        some ({ initConsole ⟨some 30, some 100, none, none⟩ with ctrlRecvBufs := [] },
          [OutEvent.reply 3 4 [], OutEvent.reply 3 4 [],
            OutEvent.reply 2 50
              (ctrlHeader 0 VIRTIO_CONSOLE_RESIZE 0 ++ le16 30 ++ le16 100)], []) :=
  ⟨rfl, (c5_initial_size ⟨some 30, some 100, none, none⟩ rfl rfl 4 1 7 50 []).1⟩

/-- Witness for `c6_transmit_forwarding` on the first additional port. -/
theorem c6_transmit_forwarding_witness :
    1 ≤ 1 ∧ transmitPort (2 * 1 + 3) = 1 :=
  ⟨by decide, (c6_transmit_forwarding 5 []).2.2.2 1 (by decide)⟩
